import Mathlib

/-!
Verification development for the `werkzeug.exceptions` module
(`src/.../serving/application/lib/werkzeug/exceptions.py`).

The module is shallowly embedded: Python's dynamically typed values are
modelled by the inductive `Val`, each exception class of the catalog by a
constructor of `ExcClass`, the registry build `_find_exceptions` by a fold
over the catalog in definition order, and `Aborter.__call__` by a total
function into `AbortSignal`, a type whose every constructor is a raised
condition (the Python method never returns normally: every control path
ends in `raise`).
-/

set_option autoImplicit false

namespace Werkzeug

/-- A Python value, as far as this module manipulates them: `None`, an
integer, a string, or a response object (either one built by the module
from body/status/headers, or any prebuilt response-like object passed in
by a caller, which this model also represents with `resp`). -/
inductive Val where
  | none
  | int (n : Int)
  | str (s : String)
  | resp (body : String) (status : Option Int) (headers : List (String × String))
deriving DecidableEq, Repr

/-- `isinstance(v, integer_types)` of `werkzeug._compat`. -/
def Val.isInt : Val → Bool
  | .int _ => true
  | _ => false

/-- Python `repr` restricted to the values above (`repr` of an integer is
its decimal digits, of a string the string between single quotes; the
`resp` branch is never exercised by the theorems below). -/
def pyRepr : Val → String
  | .none => "None"
  | .int n => toString n
  | .str s => "\x27" ++ s ++ "\x27"
  | .resp _ _ _ => "<Response object>"

/-- Python `str`: identity on strings, `repr` otherwise (as for the values
this module passes to `str`). -/
def pyStr : Val → String
  | .str s => s
  | v => pyRepr v

/-- The concrete classes defined by the module that participate in the
registry scan: the abstract base plus the full catalog, one constructor
per `class` statement, in definition order. -/
inductive ExcClass where
  | HTTPException
  | BadRequest
  | ClientDisconnected
  | SecurityError
  | BadHost
  | Unauthorized
  | Forbidden
  | NotFound
  | MethodNotAllowed
  | NotAcceptable
  | RequestTimeout
  | Conflict
  | Gone
  | LengthRequired
  | PreconditionFailed
  | RequestEntityTooLarge
  | RequestURITooLarge
  | UnsupportedMediaType
  | RequestedRangeNotSatisfiable
  | ExpectationFailed
  | ImATeapot
  | UnprocessableEntity
  | Locked
  | FailedDependency
  | PreconditionRequired
  | TooManyRequests
  | RequestHeaderFieldsTooLarge
  | UnavailableForLegalReasons
  | InternalServerError
  | NotImplemented
  | BadGateway
  | ServiceUnavailable
  | GatewayTimeout
  | HTTPVersionNotSupported
deriving DecidableEq, Repr, Fintype

/-- The `code` class attribute: `None` on the base, the status code on
each catalog kind; `ClientDisconnected`, `SecurityError` and `BadHost`
inherit `400` from `BadRequest`. -/
def ExcClass.code : ExcClass → Option Int
  | .HTTPException => Option.none
  | .BadRequest | .ClientDisconnected | .SecurityError | .BadHost => some 400
  | .Unauthorized => some 401
  | .Forbidden => some 403
  | .NotFound => some 404
  | .MethodNotAllowed => some 405
  | .NotAcceptable => some 406
  | .RequestTimeout => some 408
  | .Conflict => some 409
  | .Gone => some 410
  | .LengthRequired => some 411
  | .PreconditionFailed => some 412
  | .RequestEntityTooLarge => some 413
  | .RequestURITooLarge => some 414
  | .UnsupportedMediaType => some 415
  | .RequestedRangeNotSatisfiable => some 416
  | .ExpectationFailed => some 417
  | .ImATeapot => some 418
  | .UnprocessableEntity => some 422
  | .Locked => some 423
  | .FailedDependency => some 424
  | .PreconditionRequired => some 428
  | .TooManyRequests => some 429
  | .RequestHeaderFieldsTooLarge => some 431
  | .UnavailableForLegalReasons => some 451
  | .InternalServerError => some 500
  | .NotImplemented => some 501
  | .BadGateway => some 502
  | .ServiceUnavailable => some 503
  | .GatewayTimeout => some 504
  | .HTTPVersionNotSupported => some 505

/-- Python `issubclass` on the classes above, written out as the
reflexive-transitive closure of the `class C(B)` declarations: every class
is a subclass of itself and of `HTTPException`, and the three `BadRequest`
specializations are subclasses of `BadRequest`. -/
def issubclass (a b : ExcClass) : Bool :=
  a = b || b = .HTTPException ||
    (b = .BadRequest &&
      (a = .ClientDisconnected || a = .SecurityError || a = .BadHost))

/-- Lookup in a Python dict modelled as an association list with unique
keys (`mapping.get(k, None)` / `k in mapping` / `mapping[k]`). -/
def dictGet {α : Type} (m : List (Int × α)) (k : Int) : Option α :=
  (m.find? (fun p => p.1 = k)).map (fun p => p.2)

/-- `mapping[k] = v` on a Python dict: replace the value in place if the
key is present, append the new entry otherwise. -/
def dictSet {α : Type} (m : List (Int × α)) (k : Int) (v : α) : List (Int × α) :=
  if m.any (fun p => p.1 = k) then
    m.map (fun p => if p.1 = k then (k, v) else p)
  else
    m ++ [(k, v)]

/-- The body of the loop of `_find_exceptions` for one `obj` drawn from
the module globals: skip non-kinds (`code is None`), then either insert,
skip when the new kind is a subclass of the registered one, or assign
(which replaces the registered entry). -/
def findStep (acc : List (Int × ExcClass)) (obj : ExcClass) : List (Int × ExcClass) :=
  match obj.code with
  | Option.none => acc
  | some c =>
    match dictGet acc c with
    | some old => if issubclass obj old then acc else dictSet acc c obj
    | Option.none => dictSet acc c obj

/-- `_find_exceptions`, run over a catalog given in enumeration order. -/
def findExceptionsList (catalog : List ExcClass) : List (Int × ExcClass) :=
  catalog.foldl findStep []

/-- The classes of the module in definition order, which is the insertion
order of the module globals when `_find_exceptions()` runs (the other
globals at that point are functions and imported helpers, which the scan
skips via its `TypeError` guard). -/
def catalogOrder : List ExcClass :=
  [.HTTPException, .BadRequest, .ClientDisconnected, .SecurityError, .BadHost,
   .Unauthorized, .Forbidden, .NotFound, .MethodNotAllowed, .NotAcceptable,
   .RequestTimeout, .Conflict, .Gone, .LengthRequired, .PreconditionFailed,
   .RequestEntityTooLarge, .RequestURITooLarge, .UnsupportedMediaType,
   .RequestedRangeNotSatisfiable, .ExpectationFailed, .ImATeapot,
   .UnprocessableEntity, .Locked, .FailedDependency, .PreconditionRequired,
   .TooManyRequests, .RequestHeaderFieldsTooLarge, .UnavailableForLegalReasons,
   .InternalServerError, .NotImplemented, .BadGateway, .ServiceUnavailable,
   .GatewayTimeout, .HTTPVersionNotSupported]

/-- The module-level registry `default_exceptions`, built once. -/
def default_exceptions : List (Int × ExcClass) :=
  findExceptionsList catalogOrder

example : dictGet default_exceptions 404 = some ExcClass.NotFound := by decide
example : dictGet default_exceptions 400 = some ExcClass.BadRequest := by decide
example : dictGet default_exceptions 999 = Option.none := by decide

/-- The class-level default `description` of each class, transcribed from
the catalog (`None` on the abstract base; the three `BadRequest`
specializations inherit its text). -/
def classDescription : ExcClass → Val
  | .HTTPException => Val.none
  | .BadRequest | .ClientDisconnected | .SecurityError | .BadHost =>
    Val.str "The browser (or proxy) sent a request that this server could not understand."
  | .Unauthorized =>
    Val.str ("The server could not verify that you are authorized to access"
      ++ " the URL requested. You either supplied the wrong credentials"
      ++ " (e.g. a bad password), or your browser doesn\x27t understand"
      ++ " how to supply the credentials required.")
  | .Forbidden =>
    Val.str ("You don\x27t have the permission to access the requested"
      ++ " resource. It is either read-protected or not readable by the"
      ++ " server.")
  | .NotFound =>
    Val.str ("The requested URL was not found on the server. If you entered"
      ++ " the URL manually please check your spelling and try again.")
  | .MethodNotAllowed =>
    Val.str "The method is not allowed for the requested URL."
  | .NotAcceptable =>
    Val.str ("The resource identified by the request is only capable of"
      ++ " generating response entities which have content"
      ++ " characteristics not acceptable according to the accept"
      ++ " headers sent in the request.")
  | .RequestTimeout =>
    Val.str ("The server closed the network connection because the browser"
      ++ " didn\x27t finish the request within the specified time.")
  | .Conflict =>
    Val.str ("A conflict happened while processing the request. The"
      ++ " resource might have been modified while the request was being"
      ++ " processed.")
  | .Gone =>
    Val.str ("The requested URL is no longer available on this server and"
      ++ " there is no forwarding address. If you followed a link from a"
      ++ " foreign page, please contact the author of this page.")
  | .LengthRequired =>
    Val.str ("A request with this method requires a valid <code>Content-"
      ++ "Length</code> header.")
  | .PreconditionFailed =>
    Val.str "The precondition on the request for the URL failed positive evaluation."
  | .RequestEntityTooLarge =>
    Val.str "The data value transmitted exceeds the capacity limit."
  | .RequestURITooLarge =>
    Val.str ("The length of the requested URL exceeds the capacity limit for"
      ++ " this server. The request cannot be processed.")
  | .UnsupportedMediaType =>
    Val.str "The server does not support the media type transmitted in the request."
  | .RequestedRangeNotSatisfiable =>
    Val.str "The server cannot provide the requested range."
  | .ExpectationFailed =>
    Val.str "The server could not meet the requirements of the Expect header"
  | .ImATeapot =>
    Val.str "This server is a teapot, not a coffee machine"
  | .UnprocessableEntity =>
    Val.str ("The request was well-formed but was unable to be followed due"
      ++ " to semantic errors.")
  | .Locked =>
    Val.str "The resource that is being accessed is locked."
  | .FailedDependency =>
    Val.str ("The method could not be performed on the resource because the"
      ++ " requested action depended on another action and that action"
      ++ " failed.")
  | .PreconditionRequired =>
    Val.str ("This request is required to be conditional; try using"
      ++ " \x22If-Match\x22 or \x22If-Unmodified-Since\x22.")
  | .TooManyRequests =>
    Val.str "This user has exceeded an allotted request count. Try again later."
  | .RequestHeaderFieldsTooLarge =>
    Val.str "One or more header fields exceeds the maximum size."
  | .UnavailableForLegalReasons =>
    Val.str "Unavailable for legal reasons."
  | .InternalServerError =>
    Val.str ("The server encountered an internal error and was unable to"
      ++ " complete your request. Either the server is overloaded or"
      ++ " there is an error in the application.")
  | .NotImplemented =>
    Val.str "The server does not support the action requested by the browser."
  | .BadGateway =>
    Val.str "The proxy server received an invalid response from an upstream server."
  | .ServiceUnavailable =>
    Val.str ("The server is temporarily unable to service your request due"
      ++ " to maintenance downtime or capacity problems. Please try"
      ++ " again later.")
  | .GatewayTimeout =>
    Val.str "The connection to an upstream server timed out."
  | .HTTPVersionNotSupported =>
    Val.str "The server does not support the HTTP protocol version used in the request."

/-! ## The base rendering protocol of `HTTPException` -/

/-- `str.replace(pattern, replacement)` for a single-character pattern,
which is the only shape of pattern this module uses: one full left-to-right
pass replacing every occurrence. -/
def replaceChar (s : String) (c : Char) (r : String) : String :=
  String.join (s.toList.map (fun ch => if ch = c then r else String.singleton ch))

/-- Modelled from the spec: the escaping-utility collaborator
`escape(string) -> string` of `werkzeug.utils` (the file is not under
`src/`), which HTML-escapes the characters ampersand, less-than,
greater-than and quote, replacing each by its HTML entity, with the
ampersand pass performed first. -/
def escape (s : String) : String :=
  replaceChar
    (replaceChar
      (replaceChar
        (replaceChar s (Char.ofNat 38) "&amp;")
        (Char.ofNat 60) "&lt;")
      (Char.ofNat 62) "&gt;")
    (Char.ofNat 34) "&quot;"

namespace HTTPException

/-- The instance state written by `HTTPException.__init__`: the effective
`description` (the class default unless overridden) and the optional
prebuilt `response` (`Val.none` when absent). -/
structure State where
  description : Val
  response : Val
deriving DecidableEq, Repr

/-- `HTTPException.__init__(self, description=None, response=None)` for a
class whose class-level default description is `default_description`:
`description`, when not `None`, shadows the class attribute for this
instance only. -/
def init (default_description description response : Val) : State :=
  { description := if description = Val.none then default_description else description
    response := response }

/-- `HTTPException.get_headers`: always exactly the `Content-Type` pair. -/
def get_headers : List (String × String) := [("Content-Type", "text/html")]

/-- `HTTPException.get_description`: the description HTML-escaped, its
newlines then replaced by `<br>`, wrapped in one paragraph element. -/
def get_description (description : String) : String :=
  "<p>" ++ replaceChar (escape description) (Char.ofNat 10) "<br>" ++ "</p>"

/-- `HTTPException.get_response`: the prebuilt response is returned
directly when one was passed to the constructor; only otherwise is a
fresh response assembled from the body, the code and the headers. -/
def get_response (s : State) (code : Option Int) (headers : List (String × String))
    (body : String) : Val :=
  if s.response ≠ Val.none then s.response else Val.resp body code headers

end HTTPException

/-! ## Python call binding for the catalog constructors -/

/-- Binding of a Python call `f(*args, **kwargs)` against a parameter list
whose every parameter has a default: `Option.none` models the `TypeError`
raised for too many positional arguments, an unexpected keyword, or a
keyword that repeats a positionally bound parameter; otherwise each
parameter gets its positional argument, else its keyword argument, else
its default. -/
def bindArgs (params : List String) (defaults : List Val) (args : List Val)
    (kwargs : List (String × Val)) : Option (List Val) :=
  if params.length < args.length then Option.none
  else if kwargs.any (fun kv => !params.contains kv.1) then Option.none
  else if kwargs.any (fun kv => params.indexOf kv.1 < args.length) then Option.none
  else some ((params.zip defaults).enum.map (fun ie =>
    match args.get? ie.1 with
    | some a => a
    | Option.none =>
      match kwargs.find? (fun kv => kv.1 = ie.2.1) with
      | some kv => kv.2
      | Option.none => ie.2.2))

/-- The parameter list of each catalog class constructor, transcribed
from the `__init__` signatures: three classes declare their own, every
other class inherits `HTTPException.__init__(description, response)`. -/
def ctorParams : ExcClass → List String
  | .Unauthorized => ["description", "response", "www_authenticate"]
  | .MethodNotAllowed => ["valid_methods", "description"]
  | .RequestedRangeNotSatisfiable => ["length", "units", "description"]
  | _ => ["description", "response"]

/-- The default value of each constructor parameter (`None` throughout,
except `units="bytes"`). -/
def ctorDefaults : ExcClass → List Val
  | .Unauthorized => [Val.none, Val.none, Val.none]
  | .RequestedRangeNotSatisfiable => [Val.none, Val.str "bytes", Val.none]
  | _ => [Val.none, Val.none]

/-- A call `cls(*args, **kwargs)` for any catalog class that inherits
`HTTPException.__init__` unchanged (every class except `Unauthorized`,
`MethodNotAllowed` and `RequestedRangeNotSatisfiable`). -/
def HTTPException.initCall (default_description : Val) (args : List Val)
    (kwargs : List (String × Val)) : Option HTTPException.State :=
  match bindArgs ["description", "response"] [Val.none, Val.none] args kwargs with
  | some [d, r] => some (HTTPException.init default_description d r)
  | _ => Option.none

/-- Construction of a plain catalog kind (one with no `__init__` of its
own): binds `(description, response)` and applies the base initializer
with that kind's class default description. -/
def plainInitCall (cls : ExcClass) (args : List Val) (kwargs : List (String × Val)) :
    Option HTTPException.State :=
  HTTPException.initCall (classDescription cls) args kwargs

example :
    plainInitCall .NotFound [] []
      = some { description := classDescription .NotFound, response := Val.none } := by
  decide

/-! ## The three kinds with extra constructor state and header logic -/

namespace Unauthorized

/-- The `www_authenticate` constructor argument: `None`, one value, or a
tuple/list of values (the `isinstance(..., (tuple, list))` test of the
source, resolved as a sum type). -/
inductive WWWInput where
  | none
  | single (v : Val)
  | listOf (l : List Val)
deriving DecidableEq, Repr

/-- The normalization performed by `Unauthorized.__init__`: a non-`None`
value that is not a tuple or list is wrapped in a one-element tuple; the
stored field is `None` or a sequence. -/
def normalize : WWWInput → Option (List Val)
  | .none => Option.none
  | .single v => some [v]
  | .listOf l => some l

/-- The instance state written by `Unauthorized.__init__`. -/
structure State where
  base : HTTPException.State
  www_authenticate : Option (List Val)
deriving DecidableEq, Repr

/-- `Unauthorized.__init__(self, description=None, response=None,
www_authenticate=None)`: delegates `(description, response)` to the base
initializer, then stores the normalized `www_authenticate`. -/
def init (description response : Val) (www_authenticate : WWWInput) : State :=
  { base := HTTPException.init (classDescription .Unauthorized) description response
    www_authenticate := normalize www_authenticate }

/-- `Unauthorized.get_headers`: the base headers, plus one
`WWW-Authenticate` header joining the stored values with a comma-space,
appended only when the stored field is truthy (neither `None` nor an
empty sequence). -/
def get_headers (www_authenticate : Option (List Val)) : List (String × String) :=
  HTTPException.get_headers ++
    (match www_authenticate with
     | some l =>
       if l.isEmpty then []
       else [("WWW-Authenticate", String.intercalate ", " (l.map pyStr))]
     | Option.none => [])

end Unauthorized

namespace MethodNotAllowed

/-- The instance state written by `MethodNotAllowed.__init__`: the base
state (the `response` slot of which is always `None`, since the override
passes only `description` on) and the stored `valid_methods`. -/
structure State where
  base : HTTPException.State
  valid_methods : Option (List String)
deriving DecidableEq, Repr

/-- `MethodNotAllowed.__init__(self, valid_methods=None, description=None)`:
note that the first positional parameter is `valid_methods` and that no
`response` parameter exists. -/
def init (valid_methods : Option (List String)) (description : Val) : State :=
  { base := HTTPException.init (classDescription .MethodNotAllowed) description Val.none
    valid_methods := valid_methods }

/-- A call `MethodNotAllowed(*args, **kwargs)` in which the
`valid_methods` argument, when bound, is an (optional) list of method
strings carried through uninterpreted as `description`-slot values are;
binding failure is the `TypeError` case. The binding uses the source
signature `(valid_methods, description)`. -/
def initCall (args : List Val) (kwargs : List (String × Val)) :
    Option HTTPException.State :=
  match bindArgs (ctorParams .MethodNotAllowed) (ctorDefaults .MethodNotAllowed) args kwargs with
  | some [_, d] =>
    some (HTTPException.init (classDescription .MethodNotAllowed) d Val.none)
  | _ => Option.none

/-- `MethodNotAllowed.get_headers`: the base headers plus one `Allow`
header joining the methods with a comma-space, appended only when
`valid_methods` is truthy (neither `None` nor empty). -/
def get_headers (valid_methods : Option (List String)) : List (String × String) :=
  HTTPException.get_headers ++
    (match valid_methods with
     | some l =>
       if l.isEmpty then []
       else [("Allow", String.intercalate ", " l)]
     | Option.none => [])

end MethodNotAllowed

namespace RequestedRangeNotSatisfiable

/-- The instance state written by
`RequestedRangeNotSatisfiable.__init__(self, length=None, units="bytes",
description=None)`; as for `MethodNotAllowed`, no `response` parameter
exists and the base `response` slot is always `None`. -/
structure State where
  base : HTTPException.State
  length : Option Int
  units : String
deriving DecidableEq, Repr

/-- The constructor, with `length` already split on `None` (the source
keeps it as an optional integer). -/
def init (length : Option Int) (units : String) (description : Val) : State :=
  { base := HTTPException.init (classDescription .RequestedRangeNotSatisfiable)
      description Val.none
    length := length
    units := units }

/-- A call `RequestedRangeNotSatisfiable(*args, **kwargs)` reduced to its
base-state effect, used to show which keywords the signature accepts. -/
def initCall (args : List Val) (kwargs : List (String × Val)) :
    Option HTTPException.State :=
  match bindArgs (ctorParams .RequestedRangeNotSatisfiable)
      (ctorDefaults .RequestedRangeNotSatisfiable) args kwargs with
  | some [_, _, d] =>
    some (HTTPException.init (classDescription .RequestedRangeNotSatisfiable) d Val.none)
  | _ => Option.none

/-- `RequestedRangeNotSatisfiable.get_headers`: the base headers plus one
`Content-Range` header of the form `<units> */<length>`, appended exactly
when `length is not None` (an explicit `None` test, not truthiness: a
zero length still produces the header). -/
def get_headers (length : Option Int) (units : String) : List (String × String) :=
  HTTPException.get_headers ++
    (match length with
     | some n => [("Content-Range", units ++ " */" ++ toString n)]
     | Option.none => [])

end RequestedRangeNotSatisfiable

/-- A call `Unauthorized(*args, **kwargs)` reduced to its base-state
effect (the `www_authenticate` slot is settled by `Unauthorized.init`);
used to show which keywords the signature accepts. -/
def unauthorizedInitCall (args : List Val) (kwargs : List (String × Val)) :
    Option HTTPException.State :=
  match bindArgs (ctorParams .Unauthorized) (ctorDefaults .Unauthorized) args kwargs with
  | some [d, r, _] =>
    some (HTTPException.init (classDescription .Unauthorized) d r)
  | _ => Option.none

/-! ## The dispatcher (`Aborter`) -/

/-- A raised condition: `Aborter.__call__` ends every control path in a
`raise`, so its embedding's codomain has only raise constructors and no
normal-return constructor. `raised cls args kwargs` stands for
`raise cls(*args, **kwargs)`; the response-passthrough raise
`raise HTTPException(response=code)` is
`raised .HTTPException [] [("response", code)]`. -/
inductive AbortSignal where
  | raised (cls : ExcClass) (args : List Val) (kwargs : List (String × Val))
  | lookupError (msg : String)
deriving DecidableEq, Repr

namespace Aborter

/-- `Aborter.__init__(self, mapping=None, extra=None)`: the mapping
defaults to the registry, `dict(mapping)` takes a copy (a fresh value in
this pure model), and `extra`, when given, is applied entry by entry to
that copy only. -/
def initMapping (mapping : Option (List (Int × ExcClass)))
    (extra : Option (List (Int × ExcClass))) : List (Int × ExcClass) :=
  let m := match mapping with
    | Option.none => default_exceptions
    | some mp => mp
  match extra with
  | Option.none => m
  | some e => e.foldl (fun acc p => dictSet acc p.1 p.2) m

/-- `Aborter.__call__(self, code, *args, **kwargs)`: the passthrough
branch fires when no extra arguments were given and the selector is not
an integer; otherwise the selector is looked up in the integer-keyed
mapping (a non-integer selector is a member of no such mapping) and
either the found constructor is raised on the remaining arguments or a
`LookupError` naming the selector is raised. -/
def call (mapping : List (Int × ExcClass)) (code : Val) (args : List Val)
    (kwargs : List (String × Val)) : AbortSignal :=
  if args = [] ∧ kwargs = [] ∧ code.isInt = false then
    .raised .HTTPException [] [("response", code)]
  else
    match code with
    | .int n =>
      match dictGet mapping n with
      | some cls => .raised cls args kwargs
      | Option.none => .lookupError ("no exception for " ++ pyRepr code)
    | _ => .lookupError ("no exception for " ++ pyRepr code)

end Aborter

/-- The process-wide default dispatcher `_aborter = Aborter()`, reduced
to its mapping. -/
def aborterMapping : List (Int × ExcClass) := Aborter.initMapping Option.none Option.none

example :
    Aborter.call aborterMapping (Val.int 404) [] []
      = .raised .NotFound [] [] := by decide
example :
    Aborter.call aborterMapping (Val.int 999) [] []
      = .lookupError "no exception for 999" := by decide
example :
    Aborter.call aborterMapping (Val.resp "x" Option.none []) [] []
      = .raised .HTTPException [] [("response", Val.resp "x" Option.none [])] := by decide

/-! ## The kind combinator (`HTTPException.wrap`) -/

/-- The contract this module needs from the wrapped exception class of
`HTTPException.wrap(cls, exception)`: its type label
(`exception.__name__`) and its rendered message (`exception.__str__` of
an instance, as a function of the single construction argument it may
have received — `Option.none` when it was constructed without one). -/
structure PyExcKind where
  label : String
  strOf : Option Val → String

/-- `KeyError` as wrapped by `BadRequestKeyError = BadRequest.wrap(KeyError)`:
`str(KeyError(k))` is `repr(k)`, and `str(KeyError())` is the empty
string. -/
def KeyErrorKind : PyExcKind :=
  { label := "KeyError"
    strOf := fun a =>
      match a with
      | some v => pyRepr v
      | Option.none => "" }

namespace Combined

/-- The instance state of a class produced by `HTTPException.wrap`: the
stored `_description` (initialized from the HTTP parent's class default,
written through the `description` setter), the `response` slot, the
`show_exception` flag (class default `False`), and the argument the
wrapped exception was constructed with (`Option.none` when
`exception.__init__(self)` ran without one). -/
structure State where
  _description : Val
  response : Val
  show_exception : Bool
  wrappedArg : Option Val
deriving DecidableEq, Repr

/-- `newcls.__init__(self, arg=None, *args, **kwargs)` for a combined
class whose HTTP parent has class default description `clsDescription`.
`super(cls, self).__init__(*args, **kwargs)` resolves past `cls` in the
method resolution order: for every catalog class the next initializer is
`HTTPException.__init__` (none of the intermediate classes define one),
so the remaining arguments are bound against `(description, response)`.
The first positional argument, unless `None`, becomes the wrapped
exception's construction argument. -/
def init (clsDescription : Val) (arg : Val) (args : List Val)
    (kwargs : List (String × Val)) : Option State :=
  match bindArgs ["description", "response"] [Val.none, Val.none] args kwargs with
  | some [d, r] =>
    some { _description := if d = Val.none then clsDescription else d
           response := r
           show_exception := false
           wrappedArg := if arg = Val.none then Option.none else some arg }
  | _ => Option.none

/-- A full call `newcls(*allArgs, **kwargs)`: the first positional
argument feeds the wrapped exception, the rest feed the HTTP side. -/
def initCall (clsDescription : Val) (allArgs : List Val)
    (kwargs : List (String × Val)) : Option State :=
  init clsDescription (allArgs.headD Val.none) (allArgs.tailD []) kwargs

/-- The computed `description` property of a combined class: when
`show_exception` is set, the Python format string of the source produces
the stored description, a newline, the wrapped exception's type label, a
colon-space, and the wrapped exception's rendered message; otherwise the
stored description alone. -/
def description (E : PyExcKind) (s : State) : Val :=
  if s.show_exception then
    Val.str (pyStr s._description ++ "\n" ++ E.label ++ ": " ++ E.strOf s.wrappedArg)
  else s._description

/-- The base-state view of a combined instance, for comparing the
forwarding of the remaining constructor arguments with
`HTTPException.__init__`. -/
def toBase (s : State) : HTTPException.State :=
  { description := s._description, response := s.response }

end Combined

/-! ## Claims -/

/-! Helper lemmas about the Python-dict model. -/

theorem dictGet_append_self {α : Type} (m : List (Int × α)) (k : Int) (v : α)
    (h : m.any (fun p => p.1 = k) = false) :
    dictGet (m ++ [(k, v)]) k = some v := by
  induction m with
  | nil => simp [dictGet]
  | cons p t ih =>
    simp only [List.any_cons, Bool.or_eq_false_iff] at h
    have hp : (decide (p.1 = k)) = false := h.1
    simp only [dictGet, List.cons_append, List.find?]
    rw [hp]
    exact ih h.2

theorem dictGet_append_other {α : Type} (m : List (Int × α)) (k j : Int) (v : α)
    (h : j ≠ k) :
    dictGet (m ++ [(k, v)]) j = dictGet m j := by
  induction m with
  | nil => simp [dictGet, Ne.symm h]
  | cons p t ih =>
    simp only [dictGet, List.cons_append, List.find?] at ih ⊢
    cases hp : (decide (p.1 = j)) with
    | true => simp
    | false => exact ih

theorem dictGet_map_replace_self {α : Type} (m : List (Int × α)) (k : Int) (v : α)
    (h : m.any (fun p => p.1 = k) = true) :
    dictGet (m.map (fun p => if p.1 = k then (k, v) else p)) k = some v := by
  induction m with
  | nil => simp at h
  | cons p t ih =>
    simp only [List.any_cons, Bool.or_eq_true] at h
    by_cases hp : p.1 = k
    · simp [dictGet, List.find?, hp]
    · have ht : t.any (fun p => p.1 = k) = true := by
        rcases h with h | h
        · exact absurd (of_decide_eq_true h) hp
        · exact h
      simp only [dictGet, List.map_cons, if_neg hp, List.find?]
      rw [decide_eq_false hp]
      exact ih ht

theorem dictGet_map_replace_other {α : Type} (m : List (Int × α)) (k j : Int) (v : α)
    (h : j ≠ k) :
    dictGet (m.map (fun p => if p.1 = k then (k, v) else p)) j = dictGet m j := by
  induction m with
  | nil => simp [dictGet]
  | cons p t ih =>
    by_cases hp : p.1 = k
    · simp only [dictGet, List.map_cons, if_pos hp, List.find?] at ih ⊢
      rw [decide_eq_false (Ne.symm h), decide_eq_false (hp ▸ Ne.symm h)]
      exact ih
    · simp only [dictGet, List.map_cons, if_neg hp, List.find?] at ih ⊢
      cases hpj : (decide (p.1 = j)) with
      | true => simp
      | false => exact ih

/-- `dictGet` after `dictSet`: the set key reads back the new value, every
other key is unaffected. -/
theorem dictGet_dictSet {α : Type} (m : List (Int × α)) (k j : Int) (v : α) :
    dictGet (dictSet m k v) j = if j = k then some v else dictGet m j := by
  unfold dictSet
  by_cases hany : m.any (fun p => p.1 = k) = true
  · rw [if_pos hany]
    by_cases hj : j = k
    · subst hj
      rw [if_pos rfl]
      exact dictGet_map_replace_self m j v hany
    · rw [if_neg hj]
      exact dictGet_map_replace_other m k j v hj
  · rw [if_neg hany]
    by_cases hj : j = k
    · subst hj
      rw [if_pos rfl]
      exact dictGet_append_self m j v (Bool.eq_false_iff.mpr hany)
    · rw [if_neg hj]
      exact dictGet_append_other m k j v hj

/-- Keys not touched by a `dict.update` read the same value afterwards. -/
theorem dictGet_update_frame {α : Type} (extra : List (Int × α)) (m : List (Int × α))
    (k : Int) (hk : (extra.map Prod.fst).contains k = false) :
    dictGet (extra.foldl (fun acc p => dictSet acc p.1 p.2) m) k = dictGet m k := by
  induction extra generalizing m with
  | nil => rfl
  | cons p t ih =>
    simp only [List.map_cons, List.contains_cons, Bool.or_eq_false_iff, beq_eq_false_iff_ne,
      ne_eq] at hk
    simp only [List.foldl_cons]
    rw [ih (dictSet m p.1 p.2) (by simpa [List.contains] using hk.2)]
    rw [dictGet_dictSet, if_neg hk.1]

/-- Claim C1: for every dispatch with an integer selector present in the
dispatcher's mapping, the call signals `mapping[selector](*args, **kwargs)`;
for every integer selector absent from the mapping it fails with a
`LookupError` naming the unknown code, which is distinct from any raised
error kind. The call never returns a value: the codomain `AbortSignal` of
the embedding has only raise constructors. -/
theorem C1_dispatch_integer_selector (mapping : List (Int × ExcClass)) (n : Int)
    (args : List Val) (kwargs : List (String × Val)) :
    (∀ cls, dictGet mapping n = some cls →
      Aborter.call mapping (Val.int n) args kwargs = .raised cls args kwargs)
    ∧ (dictGet mapping n = Option.none →
      Aborter.call mapping (Val.int n) args kwargs
          = .lookupError ("no exception for " ++ toString n)
        ∧ ∀ cls a k, Aborter.call mapping (Val.int n) args kwargs ≠ .raised cls a k) := by
  constructor
  · intro cls h
    simp [Aborter.call, Val.isInt, h]
  · intro h
    constructor
    · simp [Aborter.call, Val.isInt, h, pyRepr]
    · intro cls a k
      simp [Aborter.call, Val.isInt, h, pyRepr]

/-- Witness for C1: on the default dispatcher, `dispatch(404)` raises the
canonical `NotFound` kind and `dispatch(999)` raises a `LookupError`
naming 999. -/
theorem C1_dispatch_integer_selector_witness :
    Aborter.call aborterMapping (Val.int 404) [] [] = .raised .NotFound [] []
    ∧ Aborter.call aborterMapping (Val.int 999) [] []
        = .lookupError ("no exception for " ++ toString (999 : Int)) :=
  ⟨(C1_dispatch_integer_selector aborterMapping 404 [] []).1 .NotFound (by decide),
   ((C1_dispatch_integer_selector aborterMapping 999 [] []).2 (by decide)).1⟩

/-- Claim C10: a non-integer selector passed together with at least one
extra positional or keyword argument skips the passthrough branch and
fails in the mapping lookup with a `LookupError`, not with a raised error
kind wrapping the selector. -/
theorem C10_non_integer_with_args (mapping : List (Int × ExcClass)) (v : Val)
    (args : List Val) (kwargs : List (String × Val)) (hv : v.isInt = false)
    (h : args ≠ [] ∨ kwargs ≠ []) :
    Aborter.call mapping v args kwargs = .lookupError ("no exception for " ++ pyRepr v)
    ∧ ∀ cls a k, Aborter.call mapping v args kwargs ≠ .raised cls a k := by
  cases v with
  | int n => simp [Val.isInt] at hv
  | none =>
    rcases h with h | h
    · exact ⟨by simp [Aborter.call, Val.isInt, h],
        fun cls a k => by simp [Aborter.call, Val.isInt, h]⟩
    · exact ⟨by simp [Aborter.call, Val.isInt, h],
        fun cls a k => by simp [Aborter.call, Val.isInt, h]⟩
  | str s =>
    rcases h with h | h
    · exact ⟨by simp [Aborter.call, Val.isInt, h],
        fun cls a k => by simp [Aborter.call, Val.isInt, h]⟩
    · exact ⟨by simp [Aborter.call, Val.isInt, h],
        fun cls a k => by simp [Aborter.call, Val.isInt, h]⟩
  | resp b st hs =>
    rcases h with h | h
    · exact ⟨by simp [Aborter.call, Val.isInt, h],
        fun cls a k => by simp [Aborter.call, Val.isInt, h]⟩
    · exact ⟨by simp [Aborter.call, Val.isInt, h],
        fun cls a k => by simp [Aborter.call, Val.isInt, h]⟩

/-- Witness for C10: a string selector with one positional argument fails
with a `LookupError` naming the selector. -/
theorem C10_non_integer_with_args_witness :
    Aborter.call aborterMapping (Val.str "x") [Val.int 1] []
      = .lookupError ("no exception for " ++ pyRepr (Val.str "x")) :=
  (C10_non_integer_with_args aborterMapping (Val.str "x") [Val.int 1] []
    (by decide) (Or.inl (by decide))).1

/-- Counterexample to claim C2 as stated: `None` is a non-integer
selector passed with no extra arguments, so dispatch raises the base kind
with `response=None`; but the constructed instance stores `response` as
`None`, and `get_response` on it does not return the selector itself — it
builds a fresh response instead. -/
theorem C2_none_selector_counterexample :
    Aborter.call aborterMapping Val.none [] []
        = .raised .HTTPException [] [("response", Val.none)]
    ∧ HTTPException.initCall (classDescription .HTTPException) [] [("response", Val.none)]
        = some { description := Val.none, response := Val.none }
    ∧ HTTPException.get_response { description := Val.none, response := Val.none }
        Option.none HTTPException.get_headers "" ≠ Val.none := by decide

/-- Claim C2 as amended: for every non-integer selector `r` other than
`None`, dispatch with no extra arguments raises the base kind carrying
`r` as its prebuilt response; the constructed instance stores `r` in its
`response` slot; and `get_response` returns `r` itself for every body,
code and header list — body and header generation are bypassed. -/
theorem C2_response_passthrough_amended (mapping : List (Int × ExcClass)) (r : Val)
    (hint : r.isInt = false) (hnone : r ≠ Val.none) :
    Aborter.call mapping r [] [] = .raised .HTTPException [] [("response", r)]
    ∧ HTTPException.initCall (classDescription .HTTPException) [] [("response", r)]
        = some { description := Val.none, response := r }
    ∧ ∀ (code : Option Int) (headers : List (String × String)) (body : String),
        HTTPException.get_response { description := Val.none, response := r }
          code headers body = r := by
  refine ⟨?_, ?_, ?_⟩
  · simp [Aborter.call, hint]
  · simp [HTTPException.initCall, bindArgs, HTTPException.init, classDescription,
      List.enum, List.enumFrom, List.map]
  · intro code headers body
    simp [HTTPException.get_response, hnone]

/-- Witness for the amended C2 at a concrete prebuilt response object. -/
theorem C2_response_passthrough_amended_witness :
    Aborter.call aborterMapping (Val.resp "hello" (some 200) []) [] []
        = .raised .HTTPException [] [("response", Val.resp "hello" (some 200) [])]
    ∧ HTTPException.get_response
        { description := Val.none, response := Val.resp "hello" (some 200) [] }
        Option.none HTTPException.get_headers "body" = Val.resp "hello" (some 200) [] :=
  ⟨(C2_response_passthrough_amended aborterMapping (Val.resp "hello" (some 200) [])
      (by decide) (by decide)).1,
   ((C2_response_passthrough_amended aborterMapping (Val.resp "hello" (some 200) [])
      (by decide) (by decide)).2.2 Option.none HTTPException.get_headers "body")⟩

/-- Claim C7: a dispatcher constructed with an `extra` overlay mapping
`999` to any caller-chosen kind dispatches `999` to that kind; the
overlay lives in the dispatcher's own copy: the registry has no entry for
`999`, the process-wide default dispatcher still fails `999` with a
`LookupError`, and every key outside the overlay reads the same
constructor in the overlaid copy as in the registry. -/
theorem C7_dispatcher_overlay (custom : ExcClass) (extra : List (Int × ExcClass))
    (k : Int) :
    Aborter.call (Aborter.initMapping Option.none (some [(999, custom)]))
        (Val.int 999) [] [] = .raised custom [] []
    ∧ dictGet default_exceptions 999 = Option.none
    ∧ Aborter.call aborterMapping (Val.int 999) [] []
        = .lookupError ("no exception for " ++ toString (999 : Int))
    ∧ ((extra.map Prod.fst).contains k = false →
        dictGet (Aborter.initMapping Option.none (some extra)) k
          = dictGet default_exceptions k) := by
  refine ⟨?_, by decide, by decide, ?_⟩
  · have hm : Aborter.initMapping Option.none (some [(999, custom)])
        = dictSet default_exceptions 999 custom := rfl
    have hget : dictGet (dictSet default_exceptions 999 custom) 999 = some custom := by
      rw [dictGet_dictSet]
      simp
    rw [hm]
    simp [Aborter.call, Val.isInt, hget]
  · intro hk
    exact dictGet_update_frame extra default_exceptions k hk

/-- Witness for C7: overlaying `999 -> ImATeapot` dispatches `999` to it,
while the untouched key `404` still reads the registry's `NotFound`. -/
theorem C7_dispatcher_overlay_witness :
    Aborter.call (Aborter.initMapping Option.none (some [(999, ExcClass.ImATeapot)]))
        (Val.int 999) [] [] = .raised .ImATeapot [] []
    ∧ dictGet (Aborter.initMapping Option.none (some [(999, ExcClass.ImATeapot)])) 404
        = dictGet default_exceptions 404 :=
  ⟨(C7_dispatcher_overlay ExcClass.ImATeapot [(999, ExcClass.ImATeapot)] 404).1,
   (C7_dispatcher_overlay ExcClass.ImATeapot [(999, ExcClass.ImATeapot)] 404).2.2.2
     (by decide)⟩

/-- Counterexample to claim C3 as stated: `ClientDisconnected` and
`SecurityError` are unrelated kinds (neither is a subtype of the other)
sharing code 400; running the registry build over a catalog that
enumerates them in that order ends with the later kind having replaced
the earlier entry, so first-registered does not win for unrelated kinds.
(In the real enumeration order `BadRequest` is seen first and every later
400-kind is its subtype, so this assignment branch is never reached
there.) -/
theorem C3_registry_unrelated_counterexample :
    issubclass .SecurityError .ClientDisconnected = false
    ∧ issubclass .ClientDisconnected .SecurityError = false
    ∧ ExcClass.code .ClientDisconnected = some 400
    ∧ ExcClass.code .SecurityError = some 400
    ∧ findExceptionsList [.ClientDisconnected, .SecurityError]
        = [(400, .SecurityError)]
    ∧ ExcClass.SecurityError ≠ ExcClass.ClientDisconnected := by decide

/-- Claim C3 as amended: per scan step, a new kind whose code is already
registered is skipped when it is a subtype of the registered kind, and
otherwise the assignment replaces the registered entry (last-registered
wins for unrelated kinds sharing a code); an unregistered code is
inserted; and on the real catalog the subtype rule leaves `BadRequest`
canonical for 400. -/
theorem C3_registry_build_amended (acc : List (Int × ExcClass)) (obj old : ExcClass)
    (c : Int) :
    (obj.code = some c → dictGet acc c = some old → issubclass obj old = true →
      findStep acc obj = acc)
    ∧ (obj.code = some c → dictGet acc c = some old → issubclass obj old = false →
      findStep acc obj = dictSet acc c obj)
    ∧ (obj.code = some c → dictGet acc c = Option.none →
      findStep acc obj = dictSet acc c obj)
    ∧ dictGet default_exceptions 400 = some .BadRequest := by
  refine ⟨?_, ?_, ?_, by decide⟩
  · intro h1 h2 h3
    simp [findStep, h1, h2, h3]
  · intro h1 h2 h3
    simp [findStep, h1, h2, h3]
  · intro h1 h2
    simp [findStep, h1, h2]

/-- Witness for the amended C3: with 400 registered to `BadRequest`, the
later subtype `ClientDisconnected` is skipped; with 400 registered to
`ClientDisconnected`, the unrelated `SecurityError` replaces it. -/
theorem C3_registry_build_amended_witness :
    findStep [(400, .BadRequest)] .ClientDisconnected = [(400, .BadRequest)]
    ∧ findStep [(400, .ClientDisconnected)] .SecurityError
        = dictSet [(400, .ClientDisconnected)] 400 .SecurityError :=
  ⟨(C3_registry_build_amended [(400, .BadRequest)] .ClientDisconnected .BadRequest 400).1
      (by decide) (by decide) (by decide),
   (C3_registry_build_amended [(400, .ClientDisconnected)] .SecurityError
      .ClientDisconnected 400).2.1 (by decide) (by decide) (by decide)⟩

/-- Claim C4: a combined kind constructed with a wrapped value reads its
description as exactly the HTTP parent's stored base description while
`show_exception` is false (its default), and as the base description, a
newline, the wrapped kind's type label, a colon-space and the wrapped
value's rendered message once `show_exception` is set. -/
theorem C4_combined_description (E : PyExcKind) (dflt : String) (k : Val)
    (hk : k ≠ Val.none) :
    ∃ s, Combined.init (Val.str dflt) k [] [] = some s
      ∧ s.show_exception = false
      ∧ Combined.description E s = Val.str dflt
      ∧ Combined.description E { s with show_exception := true }
          = Val.str (dflt ++ "\n" ++ E.label ++ ": " ++ E.strOf (some k)) := by
  refine ⟨{ _description := Val.str dflt, response := Val.none, show_exception := false,
            wrappedArg := some k }, ?_, rfl, rfl, ?_⟩
  · simp [Combined.init, bindArgs, List.enum, List.enumFrom, List.map, hk]
  · simp [Combined.description, pyStr]

/-- Witness for C4 at `BadRequest.wrap(KeyError)` applied to a string
key, with `BadRequest`'s default description as the base text. -/
theorem C4_combined_description_witness :
    ∃ s,
      Combined.init
          (Val.str "The browser (or proxy) sent a request that this server could not understand.")
          (Val.str "missing_key") [] [] = some s
      ∧ s.show_exception = false
      ∧ Combined.description KeyErrorKind s
          = Val.str "The browser (or proxy) sent a request that this server could not understand."
      ∧ Combined.description KeyErrorKind { s with show_exception := true }
          = Val.str ("The browser (or proxy) sent a request that this server could not understand."
              ++ "\n" ++ KeyErrorKind.label ++ ": " ++ KeyErrorKind.strOf (some (Val.str "missing_key"))) :=
  C4_combined_description KeyErrorKind
    "The browser (or proxy) sent a request that this server could not understand."
    (Val.str "missing_key") (by decide)

/-- Counterexample to claim C5 as stated: the remaining keyword arguments
of a combined class are not forwarded to the HTTP parent's own
constructor. With `Unauthorized` as the HTTP parent, passing its
`www_authenticate` keyword through the combined constructor raises a
`TypeError` (the source's `super(cls, self).__init__` resolves past
`Unauthorized.__init__` to `HTTPException.__init__`, which rejects the
keyword), while `Unauthorized`'s own constructor accepts that keyword. -/
theorem C5_forwarding_counterexample :
    Combined.init (classDescription .Unauthorized) (Val.str "k") []
        [("www_authenticate", Val.str "Basic")] = Option.none
    ∧ unauthorizedInitCall [] [("www_authenticate", Val.str "Basic")] ≠ Option.none := by
  decide

/-- Claim C5 as amended: the combined constructor's optional first
positional value, when present (not `None`), becomes the wrapped kind's
construction argument, and the wrapped kind is constructed without one
when it is absent; all remaining positional and keyword arguments are
forwarded to the base `HTTPException` constructor — the initializer found
after the HTTP parent in the method resolution order — which coincides
with the HTTP parent's own constructor exactly when that parent defines
none itself. -/
theorem C5_forwarding_amended (cd arg : Val) (args : List Val)
    (kwargs : List (String × Val)) :
    (Combined.init cd arg args kwargs).map Combined.toBase
        = HTTPException.initCall cd args kwargs
    ∧ (∀ s, Combined.init cd arg args kwargs = some s →
        s.wrappedArg = (if arg = Val.none then Option.none else some arg)
        ∧ s.show_exception = false) := by
  constructor
  · rcases hb : bindArgs ["description", "response"] [Val.none, Val.none] args kwargs
      with _ | l
    · simp [Combined.init, HTTPException.initCall, hb]
    · rcases l with _ | ⟨d, _ | ⟨r, _ | ⟨x, t⟩⟩⟩
      · simp [Combined.init, HTTPException.initCall, hb]
      · simp [Combined.init, HTTPException.initCall, hb]
      · simp [Combined.init, HTTPException.initCall, hb, Combined.toBase, HTTPException.init]
      · simp [Combined.init, HTTPException.initCall, hb]
  · intro s hs
    rcases hb : bindArgs ["description", "response"] [Val.none, Val.none] args kwargs
      with _ | l
    · simp [Combined.init, hb] at hs
    · rcases l with _ | ⟨d, _ | ⟨r, _ | ⟨x, t⟩⟩⟩
      · simp [Combined.init, hb] at hs
      · simp [Combined.init, hb] at hs
      · simp [Combined.init, hb] at hs
        subst hs
        exact ⟨rfl, rfl⟩
      · simp [Combined.init, hb] at hs

/-- Witness for the amended C5: a combined `BadRequest` called with a key
and one further positional argument forwards that argument to the base
constructor as `description` and stores the key as the wrapped
argument. -/
theorem C5_forwarding_amended_witness :
    (Combined.init (classDescription .BadRequest) (Val.str "k") [Val.str "why"] []).map
        Combined.toBase
      = HTTPException.initCall (classDescription .BadRequest) [Val.str "why"] []
    ∧ Combined.State.wrappedArg
        { _description := Val.str "why", response := Val.none, show_exception := false,
          wrappedArg := some (Val.str "k") }
        = (if (Val.str "k") = Val.none then Option.none else some (Val.str "k")) :=
  ⟨(C5_forwarding_amended (classDescription .BadRequest) (Val.str "k") [Val.str "why"] []).1,
   ((C5_forwarding_amended (classDescription .BadRequest) (Val.str "k") [Val.str "why"] []).2
      { _description := Val.str "why", response := Val.none, show_exception := false,
        wrappedArg := some (Val.str "k") } (by decide)).1⟩

/-- The number of `("Content-Type", "text/html")` entries of a header
list. -/
def countContentType (headers : List (String × String)) : Nat :=
  (headers.filter (fun h => h = ("Content-Type", "text/html"))).length

theorem countContentType_append (a b : List (String × String)) :
    countContentType (a ++ b) = countContentType a + countContentType b := by
  simp [countContentType, List.filter_append]

theorem countContentType_single_other (nm v : String) (hnm : nm ≠ "Content-Type") :
    countContentType [(nm, v)] = 0 := by
  simp [countContentType, List.filter_cons, Prod.mk.injEq, hnm]

/-- Claim C6: every kind's `get_headers` carries exactly one
`Content-Type: text/html` entry; `Unauthorized` appends a
`WWW-Authenticate` header (values joined by comma-space) only when its
stored field is a non-empty sequence, `MethodNotAllowed` appends `Allow`
only when `valid_methods` is non-empty, and `RequestedRangeNotSatisfiable`
appends `Content-Range` only when `length` is set; a `None` field yields
exactly the base headers. -/
theorem C6_get_headers (www : Option (List Val)) (vm : Option (List String))
    (len : Option Int) (units : String) (l : List Val) (ms : List String)
    (hl : l ≠ []) (hms : ms ≠ []) :
    countContentType HTTPException.get_headers = 1
    ∧ countContentType (Unauthorized.get_headers www) = 1
    ∧ countContentType (MethodNotAllowed.get_headers vm) = 1
    ∧ countContentType (RequestedRangeNotSatisfiable.get_headers len units) = 1
    ∧ Unauthorized.get_headers Option.none = HTTPException.get_headers
    ∧ MethodNotAllowed.get_headers Option.none = HTTPException.get_headers
    ∧ RequestedRangeNotSatisfiable.get_headers Option.none units = HTTPException.get_headers
    ∧ Unauthorized.get_headers (some l)
        = [("Content-Type", "text/html"),
           ("WWW-Authenticate", String.intercalate ", " (l.map pyStr))]
    ∧ MethodNotAllowed.get_headers (some ms)
        = [("Content-Type", "text/html"), ("Allow", String.intercalate ", " ms)]
    ∧ (∀ n : Int, RequestedRangeNotSatisfiable.get_headers (some n) units
        = [("Content-Type", "text/html"),
           ("Content-Range", units ++ " */" ++ toString n)]) := by
  have hbase : countContentType HTTPException.get_headers = 1 := by decide
  refine ⟨hbase, ?_, ?_, ?_, rfl, rfl, rfl, ?_, ?_, ?_⟩
  · rcases www with _ | l'
    · exact hbase
    · by_cases he : l'.isEmpty
      · simp [Unauthorized.get_headers, he]
        exact hbase
      · simp only [Unauthorized.get_headers, he, if_neg, Bool.false_eq_true,
          not_false_eq_true, countContentType_append]
        rw [countContentType_single_other "WWW-Authenticate" _ (by decide)]
        simpa using hbase
  · rcases vm with _ | l'
    · exact hbase
    · by_cases he : l'.isEmpty
      · simp [MethodNotAllowed.get_headers, he]
        exact hbase
      · simp only [MethodNotAllowed.get_headers, he, if_neg, Bool.false_eq_true,
          not_false_eq_true, countContentType_append]
        rw [countContentType_single_other "Allow" _ (by decide)]
        simpa using hbase
  · rcases len with _ | n
    · exact hbase
    · simp only [RequestedRangeNotSatisfiable.get_headers, countContentType_append]
      rw [countContentType_single_other "Content-Range" _ (by decide)]
      simpa using hbase
  · simp [Unauthorized.get_headers, hl, HTTPException.get_headers]
  · simp [MethodNotAllowed.get_headers, hms, HTTPException.get_headers]
  · intro n
    simp [RequestedRangeNotSatisfiable.get_headers, HTTPException.get_headers]

/-- Witness for C6: an `Unauthorized` with one `WWW-Authenticate` value
and a `MethodNotAllowed` allowing GET and POST produce the documented
joined headers. -/
theorem C6_get_headers_witness :
    Unauthorized.get_headers (some [Val.str "Basic realm=test"])
        = [("Content-Type", "text/html"),
           ("WWW-Authenticate",
             String.intercalate ", " ([Val.str "Basic realm=test"].map pyStr))]
    ∧ MethodNotAllowed.get_headers (some ["GET", "POST"])
        = [("Content-Type", "text/html"),
           ("Allow", String.intercalate ", " ["GET", "POST"])] :=
  ⟨(C6_get_headers Option.none Option.none Option.none "bytes"
      [Val.str "Basic realm=test"] ["GET", "POST"] (by decide) (by decide)).2.2.2.2.2.2.2.1,
   (C6_get_headers Option.none Option.none Option.none "bytes"
      [Val.str "Basic realm=test"] ["GET", "POST"] (by decide) (by decide)).2.2.2.2.2.2.2.2.1⟩

/-- Claim C8: `get_description` is the description HTML-escaped, its
newlines then replaced by `<br>`, wrapped in a single paragraph element;
total on every string, including the empty description (for which it
yields the bare paragraph). The third conjunct exercises the order of
the two passes on a description holding both a special character and a
newline. -/
theorem C8_get_description (d : String) :
    (∃ mid, HTTPException.get_description d = "<p>" ++ mid ++ "</p>"
      ∧ mid = replaceChar (escape d) (Char.ofNat 10) "<br>")
    ∧ HTTPException.get_description "" = "<p></p>"
    ∧ HTTPException.get_description "a<b\nc" = "<p>a&lt;b<br>c</p>" := by
  refine ⟨⟨_, rfl, rfl⟩, by decide, by decide⟩

/-- Counterexample to claim C9 as stated: `MethodNotAllowed` and
`RequestedRangeNotSatisfiable` are catalog kinds whose constructors do
not accept a `response` argument at all — the call raises a `TypeError` —
unlike a plain catalog kind such as `NotFound`. -/
theorem C9_construction_counterexample :
    MethodNotAllowed.initCall [] [("response", Val.resp "r" (some 200) [])] = Option.none
    ∧ RequestedRangeNotSatisfiable.initCall [] [("response", Val.resp "r" (some 200) [])]
        = Option.none
    ∧ plainInitCall .NotFound [] [("response", Val.resp "r" (some 200) [])]
        ≠ Option.none := by decide

/-- Claim C9 as amended: every catalog kind accepts `description`, which,
when given, overrides the class default for the instance alone; every
catalog kind except `MethodNotAllowed` and `RequestedRangeNotSatisfiable`
also accepts `response`, which, when given, short-circuits `get_response`
to return it unchanged; those two kinds accept `description` (as a
keyword, their first positional parameter being kind-specific) but raise
a `TypeError` on `response`. -/
theorem C9_construction_amended (cls : ExcClass) (d r : Val) (hd : d ≠ Val.none)
    (s : HTTPException.State) (hr : s.response ≠ Val.none) :
    (∀ c : ExcClass, (ctorParams c).contains "description" = true)
    ∧ ((ctorParams cls).contains "response" = true ↔
        (cls ≠ .MethodNotAllowed ∧ cls ≠ .RequestedRangeNotSatisfiable))
    ∧ plainInitCall cls [d, r] [] = some { description := d, response := r }
    ∧ plainInitCall cls [] []
        = some { description := classDescription cls, response := Val.none }
    ∧ (∀ (code : Option Int) (headers : List (String × String)) (body : String),
        HTTPException.get_response s code headers body = s.response)
    ∧ MethodNotAllowed.initCall [] [("description", d)]
        = some { description := d, response := Val.none }
    ∧ RequestedRangeNotSatisfiable.initCall [] [("description", d)]
        = some { description := d, response := Val.none }
    ∧ (∀ v, MethodNotAllowed.initCall [] [("response", v)] = Option.none)
    ∧ (∀ v, RequestedRangeNotSatisfiable.initCall [] [("response", v)] = Option.none) := by
  refine ⟨by decide, by cases cls <;> decide, ?_, ?_, ?_, ?_, ?_, ?_, ?_⟩
  · simp [plainInitCall, HTTPException.initCall, bindArgs, HTTPException.init, hd,
      List.enum, List.enumFrom, List.map]
  · simp [plainInitCall, HTTPException.initCall, bindArgs, HTTPException.init,
      List.enum, List.enumFrom, List.map]
  · intro code headers body
    simp [HTTPException.get_response, hr]
  · simp [MethodNotAllowed.initCall, ctorParams, ctorDefaults, bindArgs,
      HTTPException.init, hd, List.enum, List.enumFrom, List.map]
  · simp [RequestedRangeNotSatisfiable.initCall, ctorParams, ctorDefaults, bindArgs,
      HTTPException.init, hd, List.enum, List.enumFrom, List.map]
  · intro v
    simp [MethodNotAllowed.initCall, ctorParams, ctorDefaults, bindArgs]
  · intro v
    simp [RequestedRangeNotSatisfiable.initCall, ctorParams, ctorDefaults, bindArgs]

/-- Witness for the amended C9: `NotFound` constructed with an overriding
description and no response, and a response-carrying instance whose
`get_response` returns the stored response unchanged. -/
theorem C9_construction_amended_witness :
    plainInitCall .NotFound [Val.str "custom text", Val.none] []
        = some { description := Val.str "custom text", response := Val.none }
    ∧ HTTPException.get_response
        { description := Val.none, response := Val.str "R" } (some 404) [] "body"
        = Val.str "R" :=
  ⟨(C9_construction_amended .NotFound (Val.str "custom text") Val.none (by decide)
      { description := Val.none, response := Val.str "R" } (by decide)).2.2.1,
   (C9_construction_amended .NotFound (Val.str "custom text") Val.none (by decide)
      { description := Val.none, response := Val.str "R" } (by decide)).2.2.2.2.1
     (some 404) [] "body"⟩

end Werkzeug
